import Mathlib

/-!
Verification of the synthea chatbot core: a shallow embedding of the
context compiler (`synthea/ContextManager.py`), the command parser
(`synthea/CommandParser.py`), the response segmentation of
`synthea/SyntheaClient.py`, the tool-call loop of
`synthea/LanguageModel.py`, the worker error path of
`synthea/SyntheaServer.py` with the `ResponseUpdate` DTO, and the
PDF-attachment handling of `ContextManager._read_attachment`.

Machine strings are Lean `String`s (Python `str` slicing and `len` count
characters, as here), integers are `Nat`/`Int` (Python ints are unbounded),
fallible code returns `Except`/`Option`, and external collaborators
(the chat transport, the persona store, the inference server, `json.loads`,
the tool registry) are explicit function parameters.
-/

namespace Synthea

/-! ## Python-modelling helpers

Strings are manipulated through structurally recursive functions on their
character lists, so that every definition evaluates inside the kernel
(`String.split`, `String.startsWith` and friends are defined by well-founded
position recursion that does not reduce definitionally). -/

/-- The whitespace characters of Python `str.isspace` (ASCII part). -/
def pySpaceChar (c : Char) : Bool :=
  c == ' ' || c == '\t' || c == '\n' || c == '\r' || c == '\x0b' || c == '\x0c'

/-- Python `str.isspace`: non-empty and all characters whitespace. -/
def pyIsSpace (s : String) : Bool :=
  s ≠ "" && s.toList.all pySpaceChar

/-- Splitting a character list into maximal runs of non-whitespace
characters; `acc` is the (reversed) run currently being read. -/
def wsTokensAux (acc : List Char) : List Char → List String
  | [] => if acc = [] then [] else [List.asString acc.reverse]
  | c :: rest =>
    if pySpaceChar c then
      if acc = [] then wsTokensAux [] rest
      else List.asString acc.reverse :: wsTokensAux [] rest
    else wsTokensAux (c :: acc) rest

/-- Python `str.split()` with no argument: the maximal runs of
non-whitespace characters, in order. -/
def pySplit (s : String) : List String :=
  wsTokensAux [] s.toList

/-- Python `str.lower()` (ASCII case folding, which covers every string the
embedded code compares). -/
def pyLower (s : String) : String :=
  List.asString (s.toList.map Char.toLower)

/-- Python `str.startswith`. -/
def pyStartsWith (s pre : String) : Bool :=
  pre.toList.isPrefixOf s.toList

/-- Python `str.endswith`. -/
def pyEndsWith (s suf : String) : Bool :=
  suf.toList.isSuffixOf s.toList

/-- Python `s[n:]` (drop the first `n` characters). -/
def pyDrop (s : String) (n : Nat) : String :=
  List.asString (s.toList.drop n)

/-- Python `len(s)`. -/
def pyLen (s : String) : Nat :=
  s.toList.length

/-- Substring search on character lists: whether `pat` occurs (contiguously)
inside `l`. -/
def listIsInfix (pat : List Char) : List Char → Bool
  | [] => pat.isEmpty
  | c :: rest => pat.isPrefixOf (c :: rest) || listIsInfix pat rest

/-- Python `sub in s` (substring containment). -/
def pyContains (s sub : String) : Bool :=
  listIsInfix sub.toList s.toList

/-- Python `" ".join(tokens)`. -/
def joinWithSpace : List String → String
  | [] => ""
  | [t] => t
  | t :: rest => t ++ " " ++ joinWithSpace rest

/-- Python truthiness of an `Optional[str]`: `None` and `""` are falsy. -/
def pyFalsyOptStr : Option String → Bool
  | none => true
  | some s => s == ""

/-- Python string formatting of a value that may be `None`
(`tool_call.get(key)` renders `None` as the text "None"). -/
def pyStrOfOpt : Option String → String
  | none => "None"
  | some s => s

/-! ## Configuration (`synthea/Config.py`)

Fields read by the embedded code. `Config.__init__` loads them from
`config.yaml`, an external file, so the values are free parameters here.
`use_tools` and `tool_prompt` are read by `ContextManager.compile_chat_history`
and `LanguageModel.queue_for_generation` but are never assigned by
`Config.__init__`; Modelled from the spec: section 6 lists the tool-use
enable flag and tool instructions among the configuration surface. -/

structure Config where
  context_length : Int
  max_new_tokens : Int
  command_start_str : String
  system_prompt : String
  image_processing_enabled : Bool
  use_tools : Bool
  tool_prompt : String

/-! ## The message model (discord transport collaborator)

`discord.Message` as consumed by the embedded code: the author id, the
author display name, `clean_content`, embeds (description and footer text),
attachments, and the reply reference. Attachment bytes and PDF page texts
are snapshots of what the transport / pypdf would return on the
no-exception path. -/

structure EmbedFooter where
  text : Option String
deriving DecidableEq, Repr

structure MessageEmbed where
  description : String
  footer : EmbedFooter
deriving DecidableEq, Repr

structure Attachment where
  content_type : Option String
  decoded_bytes : String
  url : String
  filename : String
  pdf_pages : List String
deriving DecidableEq, Repr

structure Message where
  id : Nat
  author_id : Nat
  author_display_name : String
  clean_content : String
  embeds : List MessageEmbed
  attachments : List Attachment
  reference : Option Nat
deriving DecidableEq, Repr

/-- One entry of the openai-style content list: `{"type": "text", ...}` or
`{"type": "image_url", ...}`. -/
inductive ContentPart where
  | text (t : String)
  | image_url (url : String)
deriving DecidableEq, Repr

/-- One entry of the openai-style chat history built by
`compile_chat_history`. -/
structure ChatTurn where
  role : String
  content : List ContentPart
deriving DecidableEq, Repr

/-! ## Command parsing (`synthea/CommandParser.py`) -/

structure ParsedArgs where
  character : Option String := none
  use_as_system_prompt : Bool := false
  use_image_model : Bool := false
  prompt : String := ""
deriving DecidableEq, Repr

/-- `CommandError` (argparse error turned into an exception) and
`ParserExitedException` (help requested). -/
inductive ParseErr where
  | commandError (msg : String)
  | parserExited (help : String)
deriving DecidableEq, Repr

def characterFlags : List String := ["-c", "-char", "--character"]

def imageFlags : List String := ["-im", "--use-image-model"]

def spFlags : List String := ["-sp", "-system-prompt", "--use-as-system-prompt"]

def helpFlags : List String := ["-h", "--help"]

/-- Whether argparse treats a token as an option string: it starts with `-`,
has at least two characters, and does not look like a negative number
(no negative-number-shaped option is registered, so those are positional). -/
def looksLikeOptionTok (t : String) : Bool :=
  pyStartsWith t "-" && pyLen t ≥ 2 &&
    !((pyDrop t 1).toList.all (fun c => c.isDigit || c == '.') &&
      (pyDrop t 1).toList.any Char.isDigit)

/-- The argparse pass over the token list: leading recognized option strings
are consumed (with `-c`, `-char`, `--character` taking a value); `-h` and
`--help` exit the parser; an unrecognized option string is an error; and
everything from the first positional token onward is the `nargs=REMAINDER`
prompt. (Abbreviated long options and attached `-cVALUE`, `--character=VALUE`
forms are not modelled.) -/
def consume_flags : List String → ParsedArgs → Except ParseErr (ParsedArgs × List String)
  | [], args => Except.ok (args, [])
  | t :: rest, args =>
    if t ∈ characterFlags then
      match rest with
      | [] => Except.error (ParseErr.commandError "argument -c/-char/--character: expected one argument")
      | v :: rest2 => consume_flags rest2 { args with character := some v }
    else if t ∈ imageFlags then
      consume_flags rest { args with use_image_model := true }
    else if t ∈ spFlags then
      consume_flags rest { args with use_as_system_prompt := true }
    else if t ∈ helpFlags then
      Except.error (ParseErr.parserExited "help")
    else if looksLikeOptionTok t then
      Except.error (ParseErr.commandError ("unrecognized arguments: " ++ t))
    else
      Except.ok (args, t :: rest)

/-- The prefix-stripping step of `ChatbotParser.parse`: remove the command
start string (case-insensitively) if present. -/
def stripCommandStart (command_start_str command : String) : String :=
  if pyStartsWith (pyLower command) (pyLower command_start_str) then
    pyDrop command (pyLen command_start_str)
  else command

/-- `ChatbotParser.parse`: strip the command prefix, split on whitespace,
run argparse, and join the remainder tokens with single spaces into
`args.prompt`. -/
def chatbot_parse (config : Config) (command : String) : Except ParseErr ParsedArgs :=
  match consume_flags (pySplit (stripCommandStart config.command_start_str command)) {} with
  | Except.error e => Except.error e
  | Except.ok (args, remainder) =>
    Except.ok { args with prompt := joinWithSpace remainder }

example : chatbot_parse
    { context_length := 1000, max_new_tokens := 100, command_start_str := "!syn ",
      system_prompt := "", image_processing_enabled := false,
      use_tools := false, tool_prompt := "" }
    "!syn -sp You are terse." =
    Except.ok { character := none, use_as_system_prompt := true,
                use_image_model := false, prompt := "You are terse." } := by
  rfl

/-! ## Content extraction (`ContextManager._read_attachment`, `_get_content`,
`_extract_text_from_content`, `_inject_username`) -/

/-- `ContextManager.EST_CHARS_PER_TOKEN`. -/
def EST_CHARS_PER_TOKEN : Nat := 3

/-- The page-text concatenation of the PDF branch: starting from `""`,
each page appends `"\n" + page_text`. -/
def pdfConcat (pages : List String) : String :=
  pages.foldl (fun acc p => acc ++ "\n" ++ p) ""

/-- `ContextManager._read_attachment` on the no-exception path: the
`(openai_content_type, attachment_string)` pair, or `none` when an image
attachment is skipped because image processing is disabled. Unrecognized
content types fall through with both fields left `""`. (The temporary-file
dynamics of the PDF branch are modelled separately by
`read_pdf_attachment`.) -/
def read_attachment (config : Config) (a : Attachment) : Option (String × String) :=
  match a.content_type with
  | none => some ("text", a.decoded_bytes)
  | some ct =>
    if pyStartsWith ct "text/" then some ("text", a.decoded_bytes)
    else if pyContains ct "application/pdf" then some ("text", pdfConcat a.pdf_pages)
    else if pyStartsWith ct "image/" then
      if config.image_processing_enabled then some ("image_url", a.url) else none
    else some ("", "")

def emptyAttachmentNotice : String :=
  "\n\nSYSTEM: A file was attached to this message, but it is either empty or is not a file type you can read."

def tooLargeAttachmentNotice : String :=
  "\n\nSYSTEM: A file was attached to this message, but it was too large to be read."

def fileAttachmentNotice (filename content : String) : String :=
  "\n\nSYSTEM: A file called " ++ filename ++
    " was attached to this message. Here are the contents:\n " ++ content

/-- The per-attachment step of `ContextManager._get_content`, folded over
`message.attachments` with the running `(contents, tokens)` pair. -/
def getContentAttachmentStep (config : Config) (remaining_tokens : Int)
    (acc : List ContentPart × Nat) (a : Attachment) : List ContentPart × Nat :=
  match read_attachment config a with
  | none => acc
  | some (openai_content_type, attachment_content) =>
    if attachment_content = "" || pyIsSpace attachment_content then
      (acc.1 ++ [ContentPart.text emptyAttachmentNotice],
        acc.2 + pyLen emptyAttachmentNotice / EST_CHARS_PER_TOKEN)
    else if openai_content_type = "image_url" then
      (acc.1 ++ [ContentPart.image_url attachment_content], acc.2)
    else if ((pyLen attachment_content / EST_CHARS_PER_TOKEN : Nat) : Int) > remaining_tokens then
      (acc.1 ++ [ContentPart.text tooLargeAttachmentNotice],
        acc.2 + pyLen tooLargeAttachmentNotice / EST_CHARS_PER_TOKEN)
    else
      (acc.1 ++ [ContentPart.text (fileAttachmentNotice a.filename attachment_content)],
        acc.2 + pyLen (fileAttachmentNotice a.filename attachment_content) / EST_CHARS_PER_TOKEN)

/-- The base text of a message: the first embed description when the bot
stored its persona reply in an embed, else `clean_content`. -/
def messageBaseText (bot_user_id : Nat) (message : Message) : String :=
  match message.embeds with
  | e :: _ => if message.author_id = bot_user_id then e.description else message.clean_content
  | [] => message.clean_content

/-- `ContextManager._get_content`: the text part (always present) followed by
one part per readable attachment, with the accumulated token estimate. -/
def get_content (bot_user_id : Nat) (config : Config) (message : Message)
    (remaining_tokens : Int) : List ContentPart × Nat :=
  let text := messageBaseText bot_user_id message
  message.attachments.foldl (getContentAttachmentStep config remaining_tokens)
    ([ContentPart.text text], pyLen text / EST_CHARS_PER_TOKEN)

/-- `ContextManager._extract_text_from_content`: concatenate the text parts. -/
def extract_text_from_content (content : List ContentPart) : String :=
  content.foldl (fun acc part =>
    match part with
    | ContentPart.text t => acc ++ t
    | ContentPart.image_url _ => acc) ""

/-- The external collaborators of the context compiler: the bot user id,
the persona store lookup (`characters_database.load_character(id)` followed
by the `"display_name"` access), and the system-message tag.
`system_tag` is Modelled from the spec: `SyntheaClient.SYSTEM_TAG` is
referenced by `compile_chat_history` but not defined under `src/`; the spec
calls it the system/internal annotation on bot-authored messages. -/
structure CompilerEnv where
  bot_user_id : Nat
  load_character_display_name : String → String
  system_tag : String

/-- Python truthiness of `embeds[0].footer.text`. -/
def footerTruthy : Option String → Bool
  | some t => t ≠ ""
  | none => false

/-- `ContextManager._inject_username`: prepend the speaker annotation part. -/
def inject_username (env : CompilerEnv) (message : Message)
    (content : List ContentPart) : List ContentPart :=
  match message.embeds with
  | e :: _ =>
    if message.author_id = env.bot_user_id ∧ footerTruthy e.footer.text then
      ContentPart.text (env.load_character_display_name (e.footer.text.getD "") ++ ": ") :: content
    else if message.author_id = env.bot_user_id then
      ContentPart.text "You: " :: content
    else
      ContentPart.text (message.author_display_name ++ ": ") :: content
  | [] =>
    if message.author_id = env.bot_user_id then
      ContentPart.text "You: " :: content
    else
      ContentPart.text (message.author_display_name ++ ": ") :: content

/-- The bot-authored system-annotation check of `compile_chat_history`
(line 177): author is the bot, there is an embed, and its footer text equals
`SyntheaClient.SYSTEM_TAG`. -/
def isSystemTagged (env : CompilerEnv) (message : Message) : Bool :=
  match message.embeds with
  | e :: _ => message.author_id == env.bot_user_id && e.footer.text == some env.system_tag
  | [] => false

/-! ## The context compiler (`ContextManager.compile_chat_history`)

The `async for` loop over the history iterator is embedded as a fold over
the list of messages the iterator yields (triggering message first, then
each reply-chain predecessor). The loop-local variables `token_count`,
`last_command_args`, `system_prompt` and `messages` form the state. -/

structure CompileState where
  token_count : Nat
  last_command_args : Option ParsedArgs
  system_prompt : Option String
  messages : List ChatTurn
deriving Repr

/-- The three exits of one loop iteration: `continue`/fall-through to the
next message, `break` (budget overflow), or an uncaught parser exception. -/
inductive StepOut where
  | cont (st : CompileState)
  | halt (st : CompileState)
  | err (e : ParseErr)
deriving Repr

/-- One iteration of the `async for` loop of `compile_chat_history`. -/
def compile_step (env : CompilerEnv) (config : Config) (history_token_limit : Int)
    (message : Message) (st : CompileState) : StepOut :=
  let pair := get_content env.bot_user_id config message
    (history_token_limit - (st.token_count : Int))
  let text := extract_text_from_content pair.1
  if pyStartsWith (pyLower text) (pyLower config.command_start_str) then
    match chatbot_parse config text with
    | Except.error e => StepOut.err e
    | Except.ok message_args =>
      let last := st.last_command_args.getD message_args
      let st1 := { st with last_command_args := some last }
      if pyFalsyOptStr st1.system_prompt && last.use_as_system_prompt then
        StepOut.cont { st1 with system_prompt := some last.prompt }
      else
        compile_step_tail env config history_token_limit message st1
          [ContentPart.text message_args.prompt]
          (pyLen message_args.prompt / EST_CHARS_PER_TOKEN)
  else
    compile_step_tail env config history_token_limit message st pair.1 pair.2
where
  /-- The part of the loop body after the command branch: the system-tag
  skip, the empty-content skip, the budget break, the username injection and
  the prepend of the turn. -/
  compile_step_tail (env : CompilerEnv) (_config : Config) (history_token_limit : Int)
      (message : Message) (st : CompileState)
      (content : List ContentPart) (added_tokens : Nat) : StepOut :=
    if isSystemTagged env message then StepOut.cont st
    else if content = [] then StepOut.cont st
    else if (added_tokens : Int) + (st.token_count : Int) > history_token_limit then
      StepOut.halt st
    else
      StepOut.cont { st with
        messages := { role := if message.author_id = env.bot_user_id then "assistant" else "user",
                      content := inject_username env message content } :: st.messages,
        token_count := st.token_count + added_tokens }

/-- The whole `async for` loop: fold `compile_step` over the history,
stopping at `break` and propagating parser exceptions. -/
def compile_loop (env : CompilerEnv) (config : Config) (history_token_limit : Int) :
    List Message → CompileState → Except ParseErr CompileState
  | [], st => Except.ok st
  | m :: rest, st =>
    match compile_step env config history_token_limit m st with
    | StepOut.err e => Except.error e
    | StepOut.halt st1 => Except.ok st1
    | StepOut.cont st1 => compile_loop env config history_token_limit rest st1

/-- The system-prompt finalization after the loop: fall back to the default
when no (non-empty) prompt was pinned, then append the tool prompt when tool
use is enabled. -/
def finalize_system_prompt (config : Config) (default_system_prompt : String)
    (pinned : Option String) : String :=
  let sp := if pyFalsyOptStr pinned then default_system_prompt else pinned.getD ""
  if config.use_tools then sp ++ "\n" ++ config.tool_prompt else sp

/-- `ContextManager.compile_chat_history`, with the final `token_count`
exposed as a third component (the Python function returns only
`(messages, last_command_args)`; the count is its loop accumulator). -/
def compile_chat_history_full (env : CompilerEnv) (config : Config)
    (history : List Message) (default_system_prompt : String) :
    Except ParseErr (List ChatTurn × Option ParsedArgs × Nat) :=
  let history_token_limit : Int := config.context_length - config.max_new_tokens
  let system_prompt_tokens := pyLen default_system_prompt / EST_CHARS_PER_TOKEN
  match compile_loop env config history_token_limit history
      { token_count := system_prompt_tokens, last_command_args := none,
        system_prompt := none, messages := [] } with
  | Except.error e => Except.error e
  | Except.ok st =>
    let sp := finalize_system_prompt config default_system_prompt st.system_prompt
    Except.ok
      ({ role := "system",
         content := [ContentPart.text (if sp ≠ "" then sp else default_system_prompt)] }
          :: st.messages,
       st.last_command_args, st.token_count)

/-- `ContextManager.compile_chat_history` as returned to callers. -/
def compile_chat_history (env : CompilerEnv) (config : Config)
    (history : List Message) (default_system_prompt : String) :
    Except ParseErr (List ChatTurn × Option ParsedArgs) :=
  match compile_chat_history_full env config history default_system_prompt with
  | Except.error e => Except.error e
  | Except.ok (msgs, args, _) => Except.ok (msgs, args)

/-! ## The token-budget invariant (claim C1) -/

/-- The running token count of a loop exit stays under the limit. -/
def stepTokenLe (limit : Int) : StepOut → Prop
  | StepOut.cont st => (st.token_count : Int) ≤ limit
  | StepOut.halt st => (st.token_count : Int) ≤ limit
  | StepOut.err _ => True

theorem compile_step_tail_le (env : CompilerEnv) (config : Config) (limit : Int)
    (message : Message) (st : CompileState) (content : List ContentPart) (added : Nat)
    (h : (st.token_count : Int) ≤ limit) :
    stepTokenLe limit (compile_step.compile_step_tail env config limit message st content added) := by
  unfold compile_step.compile_step_tail
  split
  · exact h
  · split
    · exact h
    · split
      · exact h
      · simp only [stepTokenLe]
        push_cast
        omega

theorem compile_step_le (env : CompilerEnv) (config : Config) (limit : Int)
    (message : Message) (st : CompileState)
    (h : (st.token_count : Int) ≤ limit) :
    stepTokenLe limit (compile_step env config limit message st) := by
  unfold compile_step
  dsimp only
  split
  · split
    · simp only [stepTokenLe]
    · split
      · exact h
      · exact compile_step_tail_le _ _ _ _ _ _ _ h
  · exact compile_step_tail_le _ _ _ _ _ _ _ h

theorem compile_loop_le (env : CompilerEnv) (config : Config) (limit : Int) :
    ∀ (msgs : List Message) (st st' : CompileState),
    (st.token_count : Int) ≤ limit →
    compile_loop env config limit msgs st = Except.ok st' →
    (st'.token_count : Int) ≤ limit
  | [], st, st', h, heq => by
      simp only [compile_loop, Except.ok.injEq] at heq
      exact heq ▸ h
  | m :: rest, st, st', h, heq => by
      have hs := compile_step_le env config limit m st h
      rw [compile_loop] at heq
      cases hc : compile_step env config limit m st with
      | err e => rw [hc] at heq; exact absurd heq (by simp)
      | halt st1 =>
          rw [hc] at heq hs
          simp only [Except.ok.injEq] at heq
          exact heq ▸ hs
      | cont st1 =>
          rw [hc] at heq hs
          exact compile_loop_le env config limit rest st1 st' hs heq

/-! Concrete fixtures used to instantiate the theorems. -/

def cfgBasic : Config :=
  { context_length := 1000, max_new_tokens := 100, command_start_str := "!syn ",
    system_prompt := "", image_processing_enabled := false,
    use_tools := false, tool_prompt := "" }

def envBasic : CompilerEnv :=
  { bot_user_id := 1, load_character_display_name := fun _ => "Char",
    system_tag := "SYSTEM" }

/-- A plain text message with no embeds, attachments or reply reference. -/
def plainMessage (i author : Nat) (txt : String) : Message :=
  { id := i, author_id := author, author_display_name := "Ann", clean_content := txt,
    embeds := [], attachments := [], reference := none }

/-- C1, counterexample: with `context_length = 10`, `max_new_tokens = 5`
(history token limit `5`) and an 18-character default system prompt,
`compile_chat_history` succeeds on an empty history while its accumulated
token estimate is `18 / 3 = 6 > 5`: the system-prompt tokens are counted
into the running total but never checked against the limit, so the claimed
invariant `token_estimate ≤ context_length - max_new_tokens` fails. -/
theorem budget_invariant_counterexample :
    compile_chat_history_full envBasic
        { cfgBasic with context_length := 10, max_new_tokens := 5 }
        [] "aaaaaaaaaaaaaaaaaa" =
      Except.ok ([{ role := "system", content := [ContentPart.text "aaaaaaaaaaaaaaaaaa"] }],
        none, 6) ∧
    ¬ ((6 : Int) ≤ (10 : Int) - 5) :=
  ⟨by rfl, by norm_num⟩

/-- C1 (amended): provided the default system prompt's own token estimate
(`len(default_system_prompt) // 3`) does not already exceed
`context_length - max_new_tokens`, the accumulated token estimate of every
compiled context (the compiler's running `token_count`: system-prompt tokens
plus the counted tokens of every included turn) is at most
`context_length - max_new_tokens`; the loop's budget check stops adding
turns before any turn pushes the running total past the limit. -/
theorem budget_invariant_amended (env : CompilerEnv) (config : Config)
    (history : List Message) (dsp : String)
    (turns : List ChatTurn) (args : Option ParsedArgs) (tc : Nat)
    (hsys : ((pyLen dsp / EST_CHARS_PER_TOKEN : Nat) : Int) ≤
      config.context_length - config.max_new_tokens)
    (heq : compile_chat_history_full env config history dsp = Except.ok (turns, args, tc)) :
    (tc : Int) ≤ config.context_length - config.max_new_tokens := by
  unfold compile_chat_history_full at heq
  dsimp only at heq
  cases hl : compile_loop env config (config.context_length - config.max_new_tokens) history
      { token_count := pyLen dsp / EST_CHARS_PER_TOKEN, last_command_args := none,
        system_prompt := none, messages := [] } with
  | error e => rw [hl] at heq; exact absurd heq (by simp)
  | ok st =>
      rw [hl] at heq
      have hle := compile_loop_le env config (config.context_length - config.max_new_tokens)
        history _ st hsys hl
      simp only [Except.ok.injEq, Prod.mk.injEq] at heq
      obtain ⟨-, -, h3⟩ := heq
      exact h3 ▸ hle

/-- Witness for `budget_invariant_amended` at a two-message history. -/
theorem budget_invariant_amended_witness :
    ((7 : Nat) : Int) ≤ (1000 : Int) - 100 := by
  have hsys : ((pyLen "DEFAULT" / EST_CHARS_PER_TOKEN : Nat) : Int) ≤
      cfgBasic.context_length - cfgBasic.max_new_tokens := by decide
  exact budget_invariant_amended envBasic cfgBasic
    [plainMessage 0 2 "hi bot", plainMessage 1 1 "hello human"] "DEFAULT"
    [{ role := "system", content := [ContentPart.text "DEFAULT"] },
     { role := "assistant", content := [ContentPart.text "You: ", ContentPart.text "hello human"] },
     { role := "user", content := [ContentPart.text "Ann: ", ContentPart.text "hi bot"] }]
    none 7 hsys (by rfl)

/-! ## Command-free chains (claim C2) -/

theorem get_content_no_attachments (bot : Nat) (config : Config) (m : Message)
    (r : Int) (h : m.attachments = []) :
    get_content bot config m r =
      ([ContentPart.text (messageBaseText bot m)],
        pyLen (messageBaseText bot m) / EST_CHARS_PER_TOKEN) := by
  unfold get_content
  rw [h]
  rfl

theorem extract_text_single (t : String) :
    extract_text_from_content [ContentPart.text t] = t := by
  unfold extract_text_from_content
  simp only [List.foldl]
  exact String.empty_append t

/-! Structure of `get_content`: the base text part always comes first, each
attachment appends at most one part after it. -/

theorem extract_text_acc : ∀ (l : List ContentPart) (acc : String),
    List.foldl (fun acc part =>
      match part with
      | ContentPart.text t => acc ++ t
      | ContentPart.image_url _ => acc) acc l = acc ++ extract_text_from_content l
  | [], acc => (String.append_empty acc).symm
  | ContentPart.text t :: rest, acc => by
      simp only [List.foldl_cons]
      unfold extract_text_from_content
      simp only [List.foldl_cons]
      rw [extract_text_acc rest (acc ++ t), extract_text_acc rest ("" ++ t)]
      rw [String.empty_append, String.append_assoc]
  | ContentPart.image_url u :: rest, acc => by
      simp only [List.foldl_cons]
      unfold extract_text_from_content
      simp only [List.foldl_cons]
      rw [extract_text_acc rest acc, extract_text_acc rest ""]
      rw [String.empty_append]

theorem extract_text_append (l1 l2 : List ContentPart) :
    extract_text_from_content (l1 ++ l2) =
      extract_text_from_content l1 ++ extract_text_from_content l2 := by
  unfold extract_text_from_content
  rw [List.foldl_append]
  exact extract_text_acc l2 _

theorem getContentAttachmentStep_fst (config : Config) (r : Int)
    (acc : List ContentPart × Nat) (a : Attachment) :
    ∃ tail, (getContentAttachmentStep config r acc a).1 = acc.1 ++ tail := by
  unfold getContentAttachmentStep
  cases read_attachment config a with
  | none => exact ⟨[], (List.append_nil _).symm⟩
  | some p =>
      obtain ⟨ty, content⟩ := p
      dsimp only
      split
      · exact ⟨_, rfl⟩
      · split
        · exact ⟨_, rfl⟩
        · split
          · exact ⟨_, rfl⟩
          · exact ⟨_, rfl⟩

theorem foldl_attachment_fst (config : Config) (r : Int) :
    ∀ (atts : List Attachment) (acc : List ContentPart × Nat),
    ∃ tail, (List.foldl (getContentAttachmentStep config r) acc atts).1 = acc.1 ++ tail
  | [], acc => ⟨[], (List.append_nil _).symm⟩
  | a :: rest, acc => by
      simp only [List.foldl_cons]
      obtain ⟨t1, h1⟩ := getContentAttachmentStep_fst config r acc a
      obtain ⟨t2, h2⟩ := foldl_attachment_fst config r rest (getContentAttachmentStep config r acc a)
      exact ⟨t1 ++ t2, by rw [h2, h1, List.append_assoc]⟩

theorem get_content_fst (bot : Nat) (config : Config) (m : Message) (r : Int) :
    ∃ tail, (get_content bot config m r).1 =
      ContentPart.text (messageBaseText bot m) :: tail := by
  unfold get_content
  dsimp only
  obtain ⟨tail, h⟩ := foldl_attachment_fst config r m.attachments
    ([ContentPart.text (messageBaseText bot m)], pyLen (messageBaseText bot m) / EST_CHARS_PER_TOKEN)
  exact ⟨tail, h⟩

theorem get_content_ne_nil (bot : Nat) (config : Config) (m : Message) (r : Int) :
    (get_content bot config m r).1 ≠ [] := by
  obtain ⟨tail, h⟩ := get_content_fst bot config m r
  rw [h]
  simp

theorem extract_get_content (bot : Nat) (config : Config) (m : Message) (r : Int) :
    ∃ s, extract_text_from_content (get_content bot config m r).1 =
      messageBaseText bot m ++ s := by
  obtain ⟨tail, h⟩ := get_content_fst bot config m r
  refine ⟨extract_text_from_content tail, ?_⟩
  rw [h, show (ContentPart.text (messageBaseText bot m) :: tail) =
    [ContentPart.text (messageBaseText bot m)] ++ tail from rfl]
  rw [extract_text_append, extract_text_single]

theorem pyLower_append (a b : String) : pyLower (a ++ b) = pyLower a ++ pyLower b := by
  unfold pyLower
  rw [show (a ++ b).toList = a.toList ++ b.toList from String.data_append a b]
  rw [List.map_append]
  rfl

theorem pyLen_pyLower (s : String) : pyLen (pyLower s) = pyLen s := by
  unfold pyLen pyLower
  exact List.length_map _ _

theorem isPrefixOf_append_of_le : ∀ (p a b : List Char), p.length ≤ a.length →
    p.isPrefixOf (a ++ b) = p.isPrefixOf a
  | [], a, b, _ => by simp [List.isPrefixOf]
  | p :: ps, [], b, h => by simp at h
  | p :: ps, x :: xs, b, h => by
      simp only [List.cons_append, List.isPrefixOf]
      rw [show xs.append b = xs ++ b from rfl, isPrefixOf_append_of_le ps xs b (by simpa using h)]

theorem pyStartsWith_append_left (a b p : String) (h : pyLen p ≤ pyLen a) :
    pyStartsWith (a ++ b) p = pyStartsWith a p := by
  unfold pyStartsWith
  rw [show (a ++ b).toList = a.toList ++ b.toList from String.data_append a b]
  exact isPrefixOf_append_of_le p.toList a.toList b.toList h

/-- The loop treats a message as a command iff its extracted text starts
with the command prefix; when the message body is at least as long as the
prefix and does not itself start with it, no attachment suffix can make the
extracted text a command, whatever the remaining budget. -/
theorem not_command_of_base (env : CompilerEnv) (config : Config) (m : Message)
    (hlen : pyLen config.command_start_str ≤ pyLen (messageBaseText env.bot_user_id m))
    (hb : pyStartsWith (pyLower (messageBaseText env.bot_user_id m))
      (pyLower config.command_start_str) = false) :
    ∀ r : Int, pyStartsWith
      (pyLower (extract_text_from_content (get_content env.bot_user_id config m r).1))
      (pyLower config.command_start_str) = false := by
  intro r
  obtain ⟨s, hs⟩ := extract_get_content env.bot_user_id config m r
  rw [hs, pyLower_append,
    pyStartsWith_append_left _ _ _ (by rw [pyLen_pyLower, pyLen_pyLower]; exact hlen)]
  exact hb

/-- The claim's "every message fits in the token budget", made precise
against the loop's own accounting: walking the history with running count
`token_count`, each message's `added_tokens` (computed by `get_content` at
the then-remaining budget) keeps the total within the limit. -/
def budgetFits (env : CompilerEnv) (config : Config) (limit : Int) :
    List Message → Nat → Bool
  | [], _ => true
  | m :: rest, token_count =>
    decide (((get_content env.bot_user_id config m (limit - (token_count : Int))).2 : Int) +
      (token_count : Int) ≤ limit) &&
    budgetFits env config limit rest
      (token_count + (get_content env.bot_user_id config m (limit - (token_count : Int))).2)

/-- The turns (in iteration order, newest first) and total added tokens the
loop produces when every message is included: one role-assigned,
name-annotated turn per message. -/
def includeRun (env : CompilerEnv) (config : Config) (limit : Int) :
    List Message → Nat → List ChatTurn × Nat
  | [], _ => ([], 0)
  | m :: rest, token_count =>
    let pair := get_content env.bot_user_id config m (limit - (token_count : Int))
    let rest_run := includeRun env config limit rest (token_count + pair.2)
    ({ role := if m.author_id = env.bot_user_id then "assistant" else "user",
       content := inject_username env m pair.1 } :: rest_run.1,
     pair.2 + rest_run.2)

theorem includeRun_length (env : CompilerEnv) (config : Config) (limit : Int) :
    ∀ (msgs : List Message) (tc : Nat),
    (includeRun env config limit msgs tc).1.length = msgs.length
  | [], _ => rfl
  | m :: rest, tc => by
      simp only [includeRun]
      rw [List.length_cons, includeRun_length env config limit rest _]
      rfl

/-- The loop iteration for a non-command, non-system-tagged message within
budget: the message is included as one turn. -/
theorem compile_step_include (env : CompilerEnv) (config : Config) (limit : Int)
    (m : Message) (st : CompileState)
    (hcmd : ∀ r : Int, pyStartsWith
      (pyLower (extract_text_from_content (get_content env.bot_user_id config m r).1))
      (pyLower config.command_start_str) = false)
    (hsys : isSystemTagged env m = false)
    (hbud : ((get_content env.bot_user_id config m (limit - (st.token_count : Int))).2 : Int) +
      (st.token_count : Int) ≤ limit) :
    compile_step env config limit m st =
      StepOut.cont { st with
        messages := { role := if m.author_id = env.bot_user_id then "assistant" else "user",
                      content := inject_username env m
                        (get_content env.bot_user_id config m (limit - (st.token_count : Int))).1 }
          :: st.messages,
        token_count := st.token_count +
          (get_content env.bot_user_id config m (limit - (st.token_count : Int))).2 } := by
  unfold compile_step
  dsimp only
  rw [hcmd (limit - (st.token_count : Int))]
  simp only [Bool.false_eq_true, if_false]
  unfold compile_step.compile_step_tail
  split
  · next h => rw [hsys] at h; cases h
  · split
    · next h => exact absurd h (get_content_ne_nil env.bot_user_id config m _)
    · split
      · next h => exfalso; omega
      · rfl

theorem compile_loop_include_seg (env : CompilerEnv) (config : Config) (limit : Int) :
    ∀ (msgs tail : List Message) (st : CompileState),
    (∀ m ∈ msgs, ∀ r : Int, pyStartsWith
      (pyLower (extract_text_from_content (get_content env.bot_user_id config m r).1))
      (pyLower config.command_start_str) = false) →
    (∀ m ∈ msgs, isSystemTagged env m = false) →
    budgetFits env config limit msgs st.token_count = true →
    compile_loop env config limit (msgs ++ tail) st =
      compile_loop env config limit tail
        { token_count := st.token_count + (includeRun env config limit msgs st.token_count).2,
          last_command_args := st.last_command_args,
          system_prompt := st.system_prompt,
          messages := (includeRun env config limit msgs st.token_count).1.reverse ++ st.messages }
  | [], tail, st, _, _, _ => by
      simp only [List.nil_append, includeRun]
      rfl
  | m :: rest, tail, st, hcmd, hsys, hbud => by
      simp only [budgetFits, Bool.and_eq_true, decide_eq_true_eq] at hbud
      obtain ⟨h1, h2⟩ := hbud
      have hstep := compile_step_include env config limit m st
        (hcmd m (List.mem_cons_self m rest)) (hsys m (List.mem_cons_self m rest)) h1
      rw [List.cons_append, compile_loop, hstep]
      dsimp only
      rw [compile_loop_include_seg env config limit rest tail _
        (fun m2 hm2 => hcmd m2 (List.mem_cons_of_mem _ hm2))
        (fun m2 hm2 => hsys m2 (List.mem_cons_of_mem _ hm2)) h2]
      congr 1
      simp only [includeRun]
      simp only [List.reverse_cons, List.append_assoc, List.singleton_append,
        CompileState.mk.injEq]
      exact ⟨by omega, trivial, trivial, trivial⟩

theorem compile_loop_include (env : CompilerEnv) (config : Config) (limit : Int)
    (msgs : List Message) (st : CompileState)
    (hcmd : ∀ m ∈ msgs, ∀ r : Int, pyStartsWith
      (pyLower (extract_text_from_content (get_content env.bot_user_id config m r).1))
      (pyLower config.command_start_str) = false)
    (hsys : ∀ m ∈ msgs, isSystemTagged env m = false)
    (hbud : budgetFits env config limit msgs st.token_count = true) :
    compile_loop env config limit msgs st =
      Except.ok
        { token_count := st.token_count + (includeRun env config limit msgs st.token_count).2,
          last_command_args := st.last_command_args,
          system_prompt := st.system_prompt,
          messages := (includeRun env config limit msgs st.token_count).1.reverse ++ st.messages } := by
  have h := compile_loop_include_seg env config limit msgs [] st hcmd hsys hbud
  rw [List.append_nil] at h
  rw [h]
  rfl

/-- C2: for a reply chain (newest first, triggering message first) of `N`
messages in which no message's extracted text begins with the command prefix
(whatever the remaining budget), every message is non-empty, no message is a
bot system-tagged message, and every message's token estimate fits in the
running budget, `compile_chat_history` returns exactly one system turn
followed by the `N` conversational turns — one per message (`includeRun`
builds exactly one role-assigned, name-annotated turn per message, see
`includeRun_length`, restated in the second conjunct) — in chronological
order: the compiled list is the reverse of the newest-first iteration order,
so the oldest message comes first and the triggering message last. -/
theorem compile_simple_chain (env : CompilerEnv) (config : Config)
    (history : List Message) (dsp : String)
    (hcmd : ∀ m ∈ history, ∀ r : Int, pyStartsWith
      (pyLower (extract_text_from_content (get_content env.bot_user_id config m r).1))
      (pyLower config.command_start_str) = false)
    (_hne : ∀ m ∈ history, messageBaseText env.bot_user_id m ≠ "")
    (hsys : ∀ m ∈ history, isSystemTagged env m = false)
    (hbud : budgetFits env config (config.context_length - config.max_new_tokens) history
      (pyLen dsp / EST_CHARS_PER_TOKEN) = true) :
    compile_chat_history_full env config history dsp =
      Except.ok
        ({ role := "system",
           content := [ContentPart.text
             (if finalize_system_prompt config dsp none ≠ "" then
               finalize_system_prompt config dsp none else dsp)] }
          :: (includeRun env config (config.context_length - config.max_new_tokens) history
               (pyLen dsp / EST_CHARS_PER_TOKEN)).1.reverse,
         none,
         pyLen dsp / EST_CHARS_PER_TOKEN +
           (includeRun env config (config.context_length - config.max_new_tokens) history
             (pyLen dsp / EST_CHARS_PER_TOKEN)).2) ∧
    (includeRun env config (config.context_length - config.max_new_tokens) history
      (pyLen dsp / EST_CHARS_PER_TOKEN)).1.length = history.length := by
  constructor
  · unfold compile_chat_history_full
    dsimp only
    rw [compile_loop_include env config (config.context_length - config.max_new_tokens)
      history _ hcmd hsys hbud]
    dsimp only
    rw [List.append_nil]
  · exact includeRun_length env config (config.context_length - config.max_new_tokens)
      history (pyLen dsp / EST_CHARS_PER_TOKEN)

/-- A message carrying a text attachment, for the C2 witness. -/
def attachMessage : Message :=
  { id := 1, author_id := 2, author_display_name := "Bea", clean_content := "see attached",
    embeds := [], reference := none,
    attachments := [{ content_type := some "text/plain",
                      decoded_bytes := "twelve lines of numbers",
                      url := "http://example/report.txt", filename := "report.txt",
                      pdf_pages := [] }] }

/-- Witness for `compile_simple_chain` at a two-message chain whose second
message carries a text attachment. -/
theorem compile_simple_chain_witness :
    compile_chat_history_full envBasic cfgBasic
        [plainMessage 0 2 "hi bot", attachMessage] "DEFAULT" =
      Except.ok
        ({ role := "system",
           content := [ContentPart.text
             (if finalize_system_prompt cfgBasic "DEFAULT" none ≠ "" then
               finalize_system_prompt cfgBasic "DEFAULT" none else "DEFAULT")] }
          :: (includeRun envBasic cfgBasic
               (cfgBasic.context_length - cfgBasic.max_new_tokens)
               [plainMessage 0 2 "hi bot", attachMessage]
               (pyLen "DEFAULT" / EST_CHARS_PER_TOKEN)).1.reverse,
         none,
         pyLen "DEFAULT" / EST_CHARS_PER_TOKEN +
           (includeRun envBasic cfgBasic
             (cfgBasic.context_length - cfgBasic.max_new_tokens)
             [plainMessage 0 2 "hi bot", attachMessage]
             (pyLen "DEFAULT" / EST_CHARS_PER_TOKEN)).2) ∧
    (includeRun envBasic cfgBasic (cfgBasic.context_length - cfgBasic.max_new_tokens)
      [plainMessage 0 2 "hi bot", attachMessage]
      (pyLen "DEFAULT" / EST_CHARS_PER_TOKEN)).1.length =
      ([plainMessage 0 2 "hi bot", attachMessage] : List Message).length :=
  compile_simple_chain envBasic cfgBasic [plainMessage 0 2 "hi bot", attachMessage] "DEFAULT"
    (by
      intro m hm
      simp only [List.mem_cons, List.not_mem_nil, or_false] at hm
      rcases hm with h | h <;> subst h
      · exact not_command_of_base envBasic cfgBasic _ (by decide) (by decide)
      · exact not_command_of_base envBasic cfgBasic _ (by decide) (by decide))
    (by decide) (by decide) (by decide)

/-! ## System-prompt pinning (claim C3) -/

/-- C3, counterexample: the chain (newest first) is a plain trigger, then the
command `!syn -c bob hi` without `-sp`, then `!syn -sp You are terse.`.
No system prompt is pinned by a command closer to the trigger, yet the `-sp`
message is NOT excluded (it appears as a `user` turn carrying its prompt
text) and the system turn carries the default prompt, not "You are terse.":
the pin condition tests `last_command_args.use_as_system_prompt`, which is
the command closest to the trigger, so an older `-sp` command is never
pinned once any non-`-sp` command was seen. -/
theorem sp_pin_counterexample :
    compile_chat_history envBasic cfgBasic
        [plainMessage 0 2 "hello there",
         plainMessage 1 2 "!syn -c bob hi",
         plainMessage 2 2 "!syn -sp You are terse."]
        "DEFAULT" =
      Except.ok
        ([{ role := "system", content := [ContentPart.text "DEFAULT"] },
          { role := "user", content := [ContentPart.text "Ann: ", ContentPart.text "You are terse."] },
          { role := "user", content := [ContentPart.text "Ann: ", ContentPart.text "hi"] },
          { role := "user", content := [ContentPart.text "Ann: ", ContentPart.text "hello there"] }],
         some { character := some "bob", use_as_system_prompt := false,
                use_image_model := false, prompt := "hi" }) ∧
    "DEFAULT" ≠ "You are terse." :=
  ⟨by rfl, by decide⟩

/-- The loop iteration for the pinning command: when the message's text is a
command parsing with `use_as_system_prompt`, and neither a command nor a
system prompt was seen yet, the iteration pins the prompt and `continue`s
without adding a turn or tokens. -/
theorem compile_step_pin (env : CompilerEnv) (config : Config) (limit : Int)
    (m : Message) (st : CompileState) (margs : ParsedArgs)
    (hatt : m.attachments = [])
    (hcmd : pyStartsWith (pyLower (messageBaseText env.bot_user_id m))
      (pyLower config.command_start_str) = true)
    (hparse : chatbot_parse config (messageBaseText env.bot_user_id m) = Except.ok margs)
    (hsp : margs.use_as_system_prompt = true)
    (hargs : st.last_command_args = none)
    (hpin : st.system_prompt = none) :
    compile_step env config limit m st =
      StepOut.cont { st with last_command_args := some margs,
                             system_prompt := some margs.prompt } := by
  unfold compile_step
  dsimp only
  rw [get_content_no_attachments env.bot_user_id config m _ hatt]
  dsimp only
  rw [extract_text_single, hcmd]
  simp only [if_true]
  rw [hparse]
  dsimp only
  rw [hargs]
  simp only [Option.getD_none, hpin, pyFalsyOptStr, hsp, Bool.and_self, if_true]

theorem append_left_ne_empty (s t : String) (h : s ≠ "") : s ++ t ≠ "" := by
  intro he
  apply h
  have hd : s.data ++ t.data = [] := by
    rw [← String.data_append]
    rw [he]
  have hs : s.data = [] := (List.append_eq_nil.mp hd).1
  cases s with
  | mk d =>
      simp only at hs
      rw [hs]

/-- C3 (amended): when the `-sp` command is the first command encountered
walking back from the trigger (no other message of the chain is a command),
its prompt remainder is non-empty, no message is bot system-tagged, and
every included turn fits the token budget (so the walk reaches the command
before breaking), the command's turn is excluded from the returned history
and the system turn's text is `finalize_system_prompt` of the pinned
remainder — the remainder itself, with the tool prompt appended when tool
use is enabled — rather than the default system prompt. -/
theorem sp_pin_amended (env : CompilerEnv) (config : Config)
    (pre rest : List Message) (m : Message) (dsp : String) (margs : ParsedArgs)
    (hpre_cmd : ∀ m2 ∈ pre, ∀ r : Int, pyStartsWith
      (pyLower (extract_text_from_content (get_content env.bot_user_id config m2 r).1))
      (pyLower config.command_start_str) = false)
    (hpre_sys : ∀ m2 ∈ pre, isSystemTagged env m2 = false)
    (hrest_cmd : ∀ m2 ∈ rest, ∀ r : Int, pyStartsWith
      (pyLower (extract_text_from_content (get_content env.bot_user_id config m2 r).1))
      (pyLower config.command_start_str) = false)
    (hrest_sys : ∀ m2 ∈ rest, isSystemTagged env m2 = false)
    (hatt : m.attachments = [])
    (hcmd : pyStartsWith (pyLower (messageBaseText env.bot_user_id m))
      (pyLower config.command_start_str) = true)
    (hparse : chatbot_parse config (messageBaseText env.bot_user_id m) = Except.ok margs)
    (hsp : margs.use_as_system_prompt = true)
    (hp : margs.prompt ≠ "")
    (hpre_bud : budgetFits env config (config.context_length - config.max_new_tokens) pre
      (pyLen dsp / EST_CHARS_PER_TOKEN) = true)
    (hrest_bud : budgetFits env config (config.context_length - config.max_new_tokens) rest
      (pyLen dsp / EST_CHARS_PER_TOKEN +
        (includeRun env config (config.context_length - config.max_new_tokens) pre
          (pyLen dsp / EST_CHARS_PER_TOKEN)).2) = true) :
    compile_chat_history_full env config (pre ++ m :: rest) dsp =
      Except.ok
        ({ role := "system",
           content := [ContentPart.text (finalize_system_prompt config dsp (some margs.prompt))] }
          :: ((includeRun env config (config.context_length - config.max_new_tokens) pre
                (pyLen dsp / EST_CHARS_PER_TOKEN)).1 ++
              (includeRun env config (config.context_length - config.max_new_tokens) rest
                (pyLen dsp / EST_CHARS_PER_TOKEN +
                  (includeRun env config (config.context_length - config.max_new_tokens) pre
                    (pyLen dsp / EST_CHARS_PER_TOKEN)).2)).1).reverse,
         some margs,
         pyLen dsp / EST_CHARS_PER_TOKEN +
           (includeRun env config (config.context_length - config.max_new_tokens) pre
             (pyLen dsp / EST_CHARS_PER_TOKEN)).2 +
           (includeRun env config (config.context_length - config.max_new_tokens) rest
             (pyLen dsp / EST_CHARS_PER_TOKEN +
               (includeRun env config (config.context_length - config.max_new_tokens) pre
                 (pyLen dsp / EST_CHARS_PER_TOKEN)).2)).2) := by
  unfold compile_chat_history_full
  dsimp only
  rw [compile_loop_include_seg env config (config.context_length - config.max_new_tokens)
    pre (m :: rest) _ hpre_cmd hpre_sys hpre_bud]
  rw [compile_loop, compile_step_pin env config (config.context_length - config.max_new_tokens)
    m _ margs hatt hcmd hparse hsp rfl rfl]
  dsimp only
  rw [compile_loop_include env config (config.context_length - config.max_new_tokens)
    rest _ hrest_cmd hrest_sys hrest_bud]
  dsimp only
  have hones : pyFalsyOptStr (some margs.prompt) = false := by
    simp only [pyFalsyOptStr, beq_eq_false_iff_ne, ne_eq]
    exact hp
  have hfin : finalize_system_prompt config dsp (some margs.prompt) ≠ "" := by
    unfold finalize_system_prompt
    rw [hones]
    simp only [Bool.false_eq_true, if_false, Option.getD_some]
    split
    · exact append_left_ne_empty _ _ (append_left_ne_empty _ _ hp)
    · exact hp
  rw [if_pos hfin]
  simp only [Except.ok.injEq, Prod.mk.injEq, List.reverse_append, List.append_nil,
    List.append_assoc]

/-- Witness for `sp_pin_amended`: the `-sp` command directly behind the
trigger pins "You are terse." and is excluded from the turns. -/
theorem sp_pin_amended_witness :
    compile_chat_history_full envBasic cfgBasic
        ([plainMessage 0 2 "hello there"] ++
          plainMessage 1 2 "!syn -sp You are terse." :: [plainMessage 2 2 "earlier words"])
        "DEFAULT" =
      Except.ok
        ({ role := "system",
           content := [ContentPart.text
             (finalize_system_prompt cfgBasic "DEFAULT" (some "You are terse."))] }
          :: ((includeRun envBasic cfgBasic
                (cfgBasic.context_length - cfgBasic.max_new_tokens)
                [plainMessage 0 2 "hello there"]
                (pyLen "DEFAULT" / EST_CHARS_PER_TOKEN)).1 ++
              (includeRun envBasic cfgBasic
                (cfgBasic.context_length - cfgBasic.max_new_tokens)
                [plainMessage 2 2 "earlier words"]
                (pyLen "DEFAULT" / EST_CHARS_PER_TOKEN +
                  (includeRun envBasic cfgBasic
                    (cfgBasic.context_length - cfgBasic.max_new_tokens)
                    [plainMessage 0 2 "hello there"]
                    (pyLen "DEFAULT" / EST_CHARS_PER_TOKEN)).2)).1).reverse,
         some { character := none, use_as_system_prompt := true,
                use_image_model := false, prompt := "You are terse." },
         pyLen "DEFAULT" / EST_CHARS_PER_TOKEN +
           (includeRun envBasic cfgBasic
             (cfgBasic.context_length - cfgBasic.max_new_tokens)
             [plainMessage 0 2 "hello there"]
             (pyLen "DEFAULT" / EST_CHARS_PER_TOKEN)).2 +
           (includeRun envBasic cfgBasic
             (cfgBasic.context_length - cfgBasic.max_new_tokens)
             [plainMessage 2 2 "earlier words"]
             (pyLen "DEFAULT" / EST_CHARS_PER_TOKEN +
               (includeRun envBasic cfgBasic
                 (cfgBasic.context_length - cfgBasic.max_new_tokens)
                 [plainMessage 0 2 "hello there"]
                 (pyLen "DEFAULT" / EST_CHARS_PER_TOKEN)).2)).2) :=
  sp_pin_amended envBasic cfgBasic
    [plainMessage 0 2 "hello there"] [plainMessage 2 2 "earlier words"]
    (plainMessage 1 2 "!syn -sp You are terse.") "DEFAULT"
    { character := none, use_as_system_prompt := true,
      use_image_model := false, prompt := "You are terse." }
    (by
      intro m2 hm2
      simp only [List.mem_cons, List.not_mem_nil, or_false] at hm2
      subst hm2
      exact not_command_of_base envBasic cfgBasic _ (by decide) (by decide))
    (by decide)
    (by
      intro m2 hm2
      simp only [List.mem_cons, List.not_mem_nil, or_false] at hm2
      subst hm2
      exact not_command_of_base envBasic cfgBasic _ (by decide) (by decide))
    (by decide) (by decide) (by decide) (by rfl) (by rfl) (by decide)
    (by decide) (by decide)

/-! ## Response segmentation (`SyntheaClient.send_response`, claim C4) -/

/-- `SyntheaClient.CHAR_LIMIT` (discord's character limit). -/
def CHAR_LIMIT : Nat := 2000

/-- The `while msg_index * CHAR_LIMIT < len(response_text)` loop of
`SyntheaClient.send_response`: the message sent at index `i` carries the
slice `response_text[i * CHAR_LIMIT : (i + 1) * CHAR_LIMIT]`. -/
def sendLoop (cs : List Char) (msg_index : Nat) : List (List Char) :=
  if msg_index * CHAR_LIMIT < cs.length then
    (cs.drop (msg_index * CHAR_LIMIT)).take CHAR_LIMIT :: sendLoop cs (msg_index + 1)
  else []
termination_by cs.length - msg_index * CHAR_LIMIT
decreasing_by
  rename_i hlt
  unfold CHAR_LIMIT at *
  omega

/-- The texts of the reply messages `send_response` sends for a response. -/
def send_response_chunks (response_text : String) : List String :=
  (sendLoop response_text.toList 0).map List.asString

/-- Plain chunking: the first `CHAR_LIMIT` characters, then the chunking of
the rest (the slicing loop of `send_response`, rebased to index `0`). -/
def chunksOfLimit (cs : List Char) : List (List Char) :=
  if cs = [] then [] else cs.take CHAR_LIMIT :: chunksOfLimit (cs.drop CHAR_LIMIT)
termination_by cs.length
decreasing_by
  rename_i hne
  simp only [List.length_drop]
  unfold CHAR_LIMIT
  have : cs.length ≠ 0 := fun hh => hne (List.length_eq_zero.mp hh)
  omega

theorem chunksOfLimit_nil : chunksOfLimit [] = [] := by
  unfold chunksOfLimit
  simp

/-- `sendLoop` rebased: starting from index `i + 1` on `cs` is starting from
index `i` on `cs` with the first `CHAR_LIMIT` characters dropped. -/
theorem sendLoop_shift : ∀ (n : Nat) (cs : List Char) (i : Nat),
    cs.length ≤ n + (i + 1) * CHAR_LIMIT →
    sendLoop cs (i + 1) = sendLoop (cs.drop CHAR_LIMIT) i
  | 0, cs, i, h => by
      unfold sendLoop
      rw [if_neg (by unfold CHAR_LIMIT at *; omega),
        if_neg (by simp only [List.length_drop]; unfold CHAR_LIMIT at *; omega)]
  | n + 1, cs, i, h => by
      unfold sendLoop
      by_cases hc : (i + 1) * CHAR_LIMIT < cs.length
      · rw [if_pos hc,
          if_pos (by simp only [List.length_drop]; unfold CHAR_LIMIT at *; omega)]
        have hhead : (cs.drop ((i + 1) * CHAR_LIMIT)).take CHAR_LIMIT =
            ((cs.drop CHAR_LIMIT).drop (i * CHAR_LIMIT)).take CHAR_LIMIT := by
          rw [List.drop_drop]
          have : (i + 1) * CHAR_LIMIT = CHAR_LIMIT + i * CHAR_LIMIT := by
            unfold CHAR_LIMIT; omega
          rw [this]
        rw [hhead, sendLoop_shift n cs (i + 1) (by unfold CHAR_LIMIT at *; omega)]
      · rw [if_neg hc,
          if_neg (by simp only [List.length_drop]; unfold CHAR_LIMIT at *; omega)]

theorem sendLoop_eq_chunks : ∀ (n : Nat) (cs : List Char), cs.length ≤ n →
    sendLoop cs 0 = chunksOfLimit cs
  | 0, cs, h => by
      have hz : cs = [] := List.length_eq_zero.mp (by omega)
      subst hz
      unfold sendLoop
      rw [chunksOfLimit_nil, if_neg (by simp)]
  | n + 1, cs, h => by
      by_cases hc : cs = []
      · subst hc
        unfold sendLoop
        rw [chunksOfLimit_nil, if_neg (by simp)]
      · have hlen : 0 < cs.length := List.length_pos.mpr hc
        unfold sendLoop chunksOfLimit
        rw [if_pos (by simpa using hlen), if_neg hc]
        simp only [Nat.zero_mul, List.drop_zero]
        rw [sendLoop_shift cs.length cs 0 (by unfold CHAR_LIMIT; omega)]
        rw [sendLoop_eq_chunks n (cs.drop CHAR_LIMIT)
          (by simp only [List.length_drop]; unfold CHAR_LIMIT; omega)]

theorem chunksOfLimit_flatten : ∀ (n : Nat) (cs : List Char), cs.length ≤ n →
    (chunksOfLimit cs).flatten = cs
  | 0, cs, h => by
      have hz : cs = [] := List.length_eq_zero.mp (by omega)
      subst hz
      rw [chunksOfLimit_nil]
      rfl
  | n + 1, cs, h => by
      by_cases hc : cs = []
      · subst hc
        rw [chunksOfLimit_nil]
        rfl
      · unfold chunksOfLimit
        rw [if_neg hc]
        simp only [List.flatten_cons]
        rw [chunksOfLimit_flatten n (cs.drop CHAR_LIMIT)
          (by simp only [List.length_drop]
              unfold CHAR_LIMIT
              have : 0 < cs.length := List.length_pos.mpr hc
              omega)]
        exact List.take_append_drop CHAR_LIMIT cs

theorem chunksOfLimit_length : ∀ (n : Nat) (cs : List Char), cs.length ≤ n → cs ≠ [] →
    (chunksOfLimit cs).length = (cs.length + (CHAR_LIMIT - 1)) / CHAR_LIMIT
  | 0, cs, h, hne => absurd (List.length_eq_zero.mp (by omega)) hne
  | n + 1, cs, h, hne => by
      unfold chunksOfLimit
      rw [if_neg hne]
      by_cases hc : cs.drop CHAR_LIMIT = []
      · rw [hc, chunksOfLimit_nil]
        have h1 : 0 < cs.length := List.length_pos.mpr hne
        have h2 : cs.length ≤ CHAR_LIMIT := List.drop_eq_nil_iff.mp hc
        simp only [List.length_cons, List.length_nil]
        unfold CHAR_LIMIT at *
        omega
      · have h1 : CHAR_LIMIT < cs.length := by
          by_contra hcon
          exact hc (List.drop_eq_nil_iff.mpr (by omega))
        simp only [List.length_cons]
        rw [chunksOfLimit_length n (cs.drop CHAR_LIMIT)
          (by simp only [List.length_drop]; unfold CHAR_LIMIT at *; omega) hc]
        simp only [List.length_drop]
        unfold CHAR_LIMIT at *
        omega

theorem foldl_append_asString : ∀ (l : List (List Char)) (acc : String),
    List.foldl (fun r s => r ++ s) acc (l.map List.asString) = acc ++ List.asString l.flatten
  | [], acc => by
      simp only [List.map_nil, List.foldl_nil, List.flatten_nil]
      exact (String.append_empty acc).symm
  | x :: rest, acc => by
      simp only [List.map_cons, List.foldl_cons, List.flatten_cons]
      rw [foldl_append_asString rest (acc ++ List.asString x)]
      rw [String.append_assoc]
      rfl

/-- C4: re-segmenting a non-empty response text for delivery
(`send_response`'s slicing loop with chunk size 2000) yields exactly
`ceil(L / 2000)` chunks whose concatenation is the original text. -/
theorem send_response_round_trip (response_text : String) (h : 0 < pyLen response_text) :
    (send_response_chunks response_text).length =
      (pyLen response_text + (CHAR_LIMIT - 1)) / CHAR_LIMIT ∧
    String.join (send_response_chunks response_text) = response_text := by
  unfold send_response_chunks pyLen at *
  rw [sendLoop_eq_chunks response_text.toList.length response_text.toList (le_refl _)]
  constructor
  · rw [List.length_map]
    exact chunksOfLimit_length response_text.toList.length response_text.toList (le_refl _)
      (by intro hz; rw [hz] at h; simp at h)
  · show List.foldl (fun r s => r ++ s) "" _ = response_text
    rw [foldl_append_asString]
    rw [chunksOfLimit_flatten response_text.toList.length response_text.toList (le_refl _)]
    rw [String.empty_append]
    cases response_text
    rfl

/-- Witness for `send_response_round_trip` on a short concrete text. -/
theorem send_response_round_trip_witness :
    (send_response_chunks "hello world").length =
      (pyLen "hello world" + (CHAR_LIMIT - 1)) / CHAR_LIMIT ∧
    String.join (send_response_chunks "hello world") = "hello world" :=
  send_response_round_trip "hello world" (by decide)

/-! ## The reply-chain walker (`ReplyChainIterator.__anext__`, claim C5)

`channel.fetch_message` is the transport collaborator: its four outcomes are
a message, or the three exceptions `discord.NotFound`, `discord.Forbidden`
and `discord.HTTPException` caught by `__anext__`. `StopAsyncIteration` is
`none`. -/

inductive FetchResult where
  | found (m : Message)
  | notFound
  | forbidden
  | httpError
deriving Repr

/-- The fetch outcomes `__anext__` turns into end-of-iteration. -/
def fetchFails : FetchResult → Bool
  | FetchResult.found _ => false
  | FetchResult.notFound => true
  | FetchResult.forbidden => true
  | FetchResult.httpError => true

structure ReplyChainIterator where
  message : Message
  message_index : Nat
deriving Repr

/-- `ReplyChainIterator.__anext__`: yield the starting message on the first
call; afterwards follow `message.reference`, yielding the fetched message,
and end the iteration when there is no reference or the fetch raises
`NotFound`, `Forbidden` or `HTTPException`. -/
def replyChainNext (fetch : Nat → FetchResult) (st : ReplyChainIterator) :
    Option (Message × ReplyChainIterator) :=
  if st.message_index = 0 then
    some (st.message, { st with message_index := st.message_index + 1 })
  else
    match st.message.reference with
    | none => none
    | some rid =>
      match fetch rid with
      | FetchResult.found m => some (m, { message := m, message_index := st.message_index + 1 })
      | FetchResult.notFound => none
      | FetchResult.forbidden => none
      | FetchResult.httpError => none

/-- C5: the reply-chain walker (a) always yields the starting message first;
(b) past the first yield it ends the iteration exactly when the current
message has no reply reference or the fetch of the referenced message fails,
with all three failure kinds (not-found, forbidden, transport error) treated
identically as end-of-history (`none`, never an error value); and (c) every
later yield is the fetched target of the current message's reply reference,
so messages are produced most-recent-first along the reply chain. -/
theorem reply_chain_iterator_spec (fetch : Nat → FetchResult) :
    (∀ m : Message, replyChainNext fetch { message := m, message_index := 0 } =
      some (m, { message := m, message_index := 1 })) ∧
    (∀ st : ReplyChainIterator, st.message_index ≠ 0 →
      (replyChainNext fetch st = none ↔
        st.message.reference = none ∨
        (∃ rid, st.message.reference = some rid ∧ fetchFails (fetch rid) = true))) ∧
    (∀ (st : ReplyChainIterator) (m : Message) (st' : ReplyChainIterator),
      st.message_index ≠ 0 →
      replyChainNext fetch st = some (m, st') →
      ∃ rid, st.message.reference = some rid ∧ fetch rid = FetchResult.found m ∧
        st' = { message := m, message_index := st.message_index + 1 }) := by
  refine ⟨fun m => rfl, fun st h => ?_, fun st m st' h heq => ?_⟩
  · unfold replyChainNext
    rw [if_neg h]
    cases href : st.message.reference with
    | none => simp
    | some rid =>
        cases hf : fetch rid <;>
          simp [fetchFails, hf, href]
  · unfold replyChainNext at heq
    rw [if_neg h] at heq
    cases href : st.message.reference with
    | none => rw [href] at heq; cases heq
    | some rid =>
        rw [href] at heq
        dsimp only at heq
        cases hf : fetch rid with
        | found mm =>
            rw [hf] at heq
            dsimp only at heq
            simp only [Option.some.injEq, Prod.mk.injEq] at heq
            exact ⟨rid, rfl, by rw [hf, heq.1], by rw [← heq.2, heq.1]⟩
        | notFound => rw [hf] at heq; cases heq
        | forbidden => rw [hf] at heq; cases heq
        | httpError => rw [hf] at heq; cases heq

/-- Witness for `reply_chain_iterator_spec`: with a fetch that always raises
`Forbidden`, a non-initial state whose message replies to id `5` ends the
iteration. -/
theorem reply_chain_iterator_spec_witness :
    replyChainNext (fun _ => FetchResult.forbidden)
      { message := { plainMessage 0 2 "hi" with reference := some 5 }, message_index := 1 } =
      none :=
  ((reply_chain_iterator_spec (fun _ => FetchResult.forbidden)).2.1
    { message := { plainMessage 0 2 "hi" with reference := some 5 }, message_index := 1 }
    (by decide)).mpr (Or.inr ⟨5, rfl, rfl⟩)

/-! ## The tool-call loop (`LanguageModel.queue_for_generation`, claims C6, C7)

External collaborators are function parameters: the inference server (one
completion string per POST request, indexed by request number; HTTP-level
failures are out of scope), the image captioner, `json.loads` (returning the
parsed dict or the exception text), and the `Tools` module function lookup
(`getattr(Tools, name, None)`). The jinja prompt rendering only feeds the
server and does not influence the loop, so it is not modelled. -/

/-- A flattened chat message after the multimodal-stripping loop
(lines 52-60): content collapsed to a single string. -/
structure PyChatMessage where
  role : String
  content : String
deriving DecidableEq, Repr

/-- The multimodal-stripping pass over one turn: concatenate text parts and
replace image parts by a captioning notice. -/
def flatten_turn (get_caption : String → String) (t : ChatTurn) : PyChatMessage :=
  { role := t.role,
    content := t.content.foldl (fun acc part =>
      match part with
      | ContentPart.text s => acc ++ s
      | ContentPart.image_url u =>
          acc ++ "\n\n```SYSTEM: An image was attached to this message. Here is a description of the image: "
            ++ get_caption u ++ "```") "" }

/-- The parsed tool-call payload as a Python dict: the `"name"` and
`"arguments"` keys may each be absent (their lookups raise `KeyError`).
`arguments_val` holds `tool_call["arguments"].values()` in order. -/
structure PyDict where
  name_val : Option String
  arguments_val : Option (List String)
deriving DecidableEq, Repr

structure ToolEnv where
  server : Nat → String
  get_caption : String → String
  json_loads : String → Except String PyDict
  tools_lookup : String → Option (List String → Except String String)

/-- `LanguageModel.execute_function_call`: look the function up in `Tools`
(`None` when absent, whose call raises a `TypeError`), call it, and wrap the
response in the result-dict string. -/
def execute_function_call (env : ToolEnv) (function_name : String)
    (function_args : List String) : Except String String :=
  match env.tools_lookup function_name with
  | none => Except.error "TypeError: NoneType object is not callable"
  | some f =>
    match f function_args with
    | Except.error e => Except.error e
    | Except.ok function_response =>
        Except.ok ("\x7b\"name\": \"" ++ function_name ++ "\", \"content\": "
          ++ function_response ++ "\x7d")

def TOOL_CALL_OPEN : String := "<tool_call>"

def TOOL_CALL_CLOSE : String := "</tool_call>"

/-- First index at which `pat` occurs in the list, if any. -/
def findSubstrIdx (pat : List Char) : List Char → Option Nat
  | [] => if pat.isEmpty then some 0 else none
  | c :: rest =>
    if pat.isPrefixOf (c :: rest) then some 0
    else (findSubstrIdx pat rest).map (· + 1)

/-- `TOOL_CALL_PATTERN.findall(...)[0]`: the text of the first non-greedy
`<tool_call>...</tool_call>` match. (The first `</tool_call>` after the
first `<tool_call>` — a close after any later open is also after the first
open, and the tags cannot overlap, so this is the leftmost regex match.) -/
def first_tool_call_payload (s : String) : Option String :=
  match findSubstrIdx TOOL_CALL_OPEN.toList s.toList with
  | none => none
  | some i =>
    match findSubstrIdx TOOL_CALL_CLOSE.toList (s.toList.drop (i + pyLen TOOL_CALL_OPEN)) with
    | none => none
    | some j => some (List.asString ((s.toList.drop (i + pyLen TOOL_CALL_OPEN)).take j))

/-- Lines 103-104: append the closing tag when the completion lacks it. -/
def padToolCallClose (s : String) : String :=
  if pyEndsWith s TOOL_CALL_CLOSE then s else s ++ TOOL_CALL_CLOSE

/-- The retry `tool` turn for a parse or execution failure inside the
`try`/`except` (line 124); `name` is `tool_call.get('name')`. -/
def toolRetryExecText (name : Option String) (e : String) : String :=
  "<tool_response>\nThere was an error when executing the function: " ++ pyStrOfOpt name
    ++ "\nHere's the error traceback: " ++ e
    ++ "\nPlease call this function again with correct arguments within XML tags <tool_call></tool_call>\n</tool_response>\n"

/-- The retry `tool` turn when the regex finds no match (line 126). -/
def toolRetryParseText : String :=
  "<tool_response>\nThere was an error when parsing the request.\nPlease call this function again with correct arguments within XML tags <tool_call></tool_call>\n</tool_response>\n"

/-- The loop-local variables of `queue_for_generation`. `tool_call_var` is
the Python local `tool_call`, which persists across iterations and is only
rebound when `json.loads` succeeds — the `except` handler reads it, so when
`json.loads` raised before the first successful binding, the handler itself
raises `UnboundLocalError`. -/
structure GenState where
  chat_history : List PyChatMessage
  generation_count : Nat
  needs_call : Bool
  last_completion : String
  tool_call_var : Option PyDict
deriving Repr

inductive PyErr where
  | unboundLocalError (name : String)
deriving DecidableEq, Repr

/-- One iteration of the `while needs_call and generation_count < 5` loop:
request a completion, count it, and on a tool call append the assistant turn
and the tool-response turn (executing the call, or building a retry turn on
parse/execution failure). -/
def gen_iteration (env : ToolEnv) (config : Config) (st : GenState) : Except PyErr GenState :=
  let last_completion0 := env.server st.generation_count
  let generation_count := st.generation_count + 1
  if config.use_tools && pyContains last_completion0 TOOL_CALL_OPEN then
    let last_completion := padToolCallClose last_completion0
    let hist1 := st.chat_history ++ [{ role := "assistant", content := last_completion }]
    match first_tool_call_payload last_completion with
    | some payload =>
      match env.json_loads payload with
      | Except.ok tool_call =>
        let result : Except String String :=
          match tool_call.name_val with
          | none => Except.error "'name'"
          | some nm =>
            match tool_call.arguments_val with
            | none => Except.error "'arguments'"
            | some args => execute_function_call env nm args
        match result with
        | Except.ok function_response =>
          let toolTurn : PyChatMessage :=
            { role := "tool",
              content := "<tool_response>\n" ++ function_response ++ "\n</tool_response>\n" }
          Except.ok { chat_history := hist1 ++ [toolTurn],
                      generation_count := generation_count, needs_call := true,
                      last_completion := last_completion, tool_call_var := some tool_call }
        | Except.error e =>
          let toolTurn : PyChatMessage :=
            { role := "tool", content := toolRetryExecText tool_call.name_val e }
          Except.ok { chat_history := hist1 ++ [toolTurn],
                      generation_count := generation_count, needs_call := true,
                      last_completion := last_completion, tool_call_var := some tool_call }
      | Except.error e =>
        match st.tool_call_var with
        | none => Except.error (PyErr.unboundLocalError "tool_call")
        | some stale =>
          let toolTurn : PyChatMessage :=
            { role := "tool", content := toolRetryExecText stale.name_val e }
          Except.ok { chat_history := hist1 ++ [toolTurn],
                      generation_count := generation_count, needs_call := true,
                      last_completion := last_completion, tool_call_var := some stale }
    | none =>
      let toolTurn : PyChatMessage := { role := "tool", content := toolRetryParseText }
      Except.ok { chat_history := hist1 ++ [toolTurn],
                  generation_count := generation_count, needs_call := true,
                  last_completion := last_completion, tool_call_var := st.tool_call_var }
  else
    Except.ok { st with generation_count := generation_count, needs_call := false,
                        last_completion := last_completion0 }

/-- The `while needs_call and generation_count < 5` loop. The fuel argument
is an upper bound on the remaining iterations; since every iteration
increments `generation_count` by one and the guard requires
`generation_count < 5`, fuel `5` from a fresh state is never the binding
constraint. -/
def gen_loop (env : ToolEnv) (config : Config) : Nat → GenState → Except PyErr GenState
  | 0, st => Except.ok st
  | fuel + 1, st =>
    if st.needs_call && st.generation_count < 5 then
      match gen_iteration env config st with
      | Except.error e => Except.error e
      | Except.ok st1 => gen_loop env config fuel st1
    else Except.ok st

/-- `LanguageModel.queue_for_generation`, with the number of completion
requests made (the final `generation_count`) exposed alongside the returned
completion. -/
def queue_for_generation_full (env : ToolEnv) (config : Config)
    (chat_history : List ChatTurn) : Except PyErr (String × Nat) :=
  match gen_loop env config 5
      { chat_history := chat_history.map (flatten_turn env.get_caption),
        generation_count := 0, needs_call := true,
        last_completion := "", tool_call_var := none } with
  | Except.error e => Except.error e
  | Except.ok st => Except.ok (st.last_completion, st.generation_count)

/-- `LanguageModel.queue_for_generation` as returned to callers. -/
def queue_for_generation (env : ToolEnv) (config : Config)
    (chat_history : List ChatTurn) : Except PyErr String :=
  match queue_for_generation_full env config chat_history with
  | Except.error e => Except.error e
  | Except.ok (text, _) => Except.ok text

theorem gen_iteration_count (env : ToolEnv) (config : Config) (st st1 : GenState)
    (h : gen_iteration env config st = Except.ok st1) :
    st1.generation_count = st.generation_count + 1 := by
  unfold gen_iteration at h
  dsimp only at h
  repeat' split at h
  all_goals
    first
    | (simp only [Except.ok.injEq] at h; subst h; rfl)
    | (cases h)

/-- When the completion of this round carries a tool tag and tool use is on,
the iteration asks for another round and records the (close-padded)
completion. -/
theorem gen_iteration_tool (env : ToolEnv) (config : Config) (st st1 : GenState)
    (htools : config.use_tools = true)
    (htag : pyContains (env.server st.generation_count) TOOL_CALL_OPEN = true)
    (h : gen_iteration env config st = Except.ok st1) :
    st1.needs_call = true ∧
    st1.last_completion = padToolCallClose (env.server st.generation_count) ∧
    st1.generation_count = st.generation_count + 1 := by
  unfold gen_iteration at h
  dsimp only at h
  rw [htools, htag] at h
  simp only [Bool.and_self, if_true] at h
  repeat' split at h
  all_goals
    first
    | (simp only [Except.ok.injEq] at h; subst h; exact ⟨rfl, rfl, rfl⟩)
    | (cases h)

theorem gen_loop_count_le (env : ToolEnv) (config : Config) :
    ∀ (fuel : Nat) (st st' : GenState),
    st.generation_count ≤ 5 →
    gen_loop env config fuel st = Except.ok st' →
    st'.generation_count ≤ 5
  | 0, st, st', h, heq => by
      simp only [gen_loop, Except.ok.injEq] at heq
      exact heq ▸ h
  | fuel + 1, st, st', h, heq => by
      rw [gen_loop] at heq
      split at heq
      · next hguard =>
          simp only [Bool.and_eq_true, decide_eq_true_eq] at hguard
          cases hit : gen_iteration env config st with
          | error e => rw [hit] at heq; cases heq
          | ok st1 =>
              rw [hit] at heq
              have hc := gen_iteration_count env config st st1 hit
              exact gen_loop_count_le env config fuel st1 st' (by omega) heq
      · next =>
          simp only [Except.ok.injEq] at heq
          exact heq ▸ h

/-- When the model keeps emitting tool calls, the loop runs its rounds up to
the ceiling and leaves the last round's completion in `last_completion`. -/
theorem gen_loop_all_tool (env : ToolEnv) (config : Config)
    (htools : config.use_tools = true)
    (htags : ∀ i, i < 5 → pyContains (env.server i) TOOL_CALL_OPEN = true) :
    ∀ (fuel : Nat) (st st' : GenState),
    st.needs_call = true →
    st.generation_count + fuel = 5 →
    st.generation_count < 5 →
    gen_loop env config fuel st = Except.ok st' →
    st'.generation_count = 5 ∧ st'.last_completion = padToolCallClose (env.server 4)
  | 0, st, st', hn, hf, hlt, heq => by omega
  | fuel + 1, st, st', hn, hf, hlt, heq => by
      rw [gen_loop] at heq
      rw [if_pos (by simp [hn, hlt])] at heq
      cases hit : gen_iteration env config st with
      | error e => rw [hit] at heq; cases heq
      | ok st1 =>
          rw [hit] at heq
          have htool := gen_iteration_tool env config st st1 htools
            (htags st.generation_count hlt) hit
          obtain ⟨hn1, hlast1, hc1⟩ := htool
          by_cases hfin : st1.generation_count = 5
          · have hfuel : fuel = 0 := by omega
            subst hfuel
            simp only [gen_loop, Except.ok.injEq] at heq
            subst heq
            refine ⟨hfin, ?_⟩
            rw [hlast1]
            have : st.generation_count = 4 := by omega
            rw [this]
          · exact gen_loop_all_tool env config htools htags fuel st1 st' hn1
              (by omega) (by omega) heq

/-- C6: the tool-call loop makes at most 5 requests to the inference
service; and when every completion keeps emitting tool calls (so the ceiling
is reached), the loop returns the last round's completion text (the fifth
completion, close-padded) instead of raising an error. -/
theorem tool_loop_bounded (env : ToolEnv) (config : Config) (chat_history : List ChatTurn) :
    (∀ res : String × Nat,
      queue_for_generation_full env config chat_history = Except.ok res → res.2 ≤ 5) ∧
    (config.use_tools = true →
      (∀ i, i < 5 → pyContains (env.server i) TOOL_CALL_OPEN = true) →
      ∀ res : String × Nat,
        queue_for_generation_full env config chat_history = Except.ok res →
        res.2 = 5 ∧ res.1 = padToolCallClose (env.server 4)) := by
  constructor
  · intro res heq
    unfold queue_for_generation_full at heq
    cases hl : gen_loop env config 5
        { chat_history := chat_history.map (flatten_turn env.get_caption),
          generation_count := 0, needs_call := true,
          last_completion := "", tool_call_var := none } with
    | error e => rw [hl] at heq; cases heq
    | ok st =>
        rw [hl] at heq
        simp only [Except.ok.injEq] at heq
        have := gen_loop_count_le env config 5 _ st (by dsimp only; omega) hl
        rw [← heq]
        exact this
  · intro htools htags res heq
    unfold queue_for_generation_full at heq
    cases hl : gen_loop env config 5
        { chat_history := chat_history.map (flatten_turn env.get_caption),
          generation_count := 0, needs_call := true,
          last_completion := "", tool_call_var := none } with
    | error e => rw [hl] at heq; cases heq
    | ok st =>
        rw [hl] at heq
        simp only [Except.ok.injEq] at heq
        have := gen_loop_all_tool env config htools htags 5 _ st rfl
          (by rfl) (by dsimp only; omega) hl
        rw [← heq]
        exact ⟨this.1, this.2⟩

def cfgTools : Config :=
  { context_length := 1000, max_new_tokens := 100, command_start_str := "!syn ",
    system_prompt := "", image_processing_enabled := false,
    use_tools := true, tool_prompt := "TOOLS" }

def envToolOk : ToolEnv :=
  { server := fun _ => "go<tool_call>x</tool_call>",
    get_caption := fun _ => "",
    json_loads := fun _ => Except.ok { name_val := some "f", arguments_val := some [] },
    tools_lookup := fun _ => some (fun _ => Except.ok "42") }

/-- Witness for `tool_loop_bounded`: a server that always emits a tool call
with a parseable payload makes the loop stop at 5 requests and return the
fifth completion. -/
theorem tool_loop_bounded_witness :
    (("go<tool_call>x</tool_call>", 5) : String × Nat).2 = 5 ∧
    (("go<tool_call>x</tool_call>", 5) : String × Nat).1 =
      padToolCallClose (envToolOk.server 4) :=
  (tool_loop_bounded envToolOk cfgTools []).2 rfl (fun _ _ => rfl)
    ("go<tool_call>x</tool_call>", 5) (by rfl)

def envToolBad : ToolEnv :=
  { server := fun _ => "x<tool_call>notjson</tool_call>",
    get_caption := fun _ => "",
    json_loads := fun _ => Except.error "Expecting value: line 1 column 1 (char 0)",
    tools_lookup := fun _ => none }

/-- C7: when the FIRST tool-call payload of a request fails to parse as
JSON, `queue_for_generation` does not append a retry `tool` turn — it
crashes. The `except` handler interpolates `tool_call.get('name')`, but
`tool_call` was never bound (the failed `json.loads` was its first
assignment), so the handler raises `UnboundLocalError`, which escapes the
loop and fails the whole request, contrary to the claim and the spec's
recovery description. (When a previous round had bound `tool_call`, or when
the failure is a `KeyError`/execution error, the retry turn IS appended and
the loop continues — the slip is only the unbound first-failure case.) -/
theorem tool_parse_failure_crashes :
    queue_for_generation_full envToolBad cfgTools [] =
      Except.error (PyErr.unboundLocalError "tool_call") := by
  rfl

/-! ## The worker error path (`SyntheaServer.run` and
`dtos/ResponseUpdate.py`, claim C8)

`ResponseUpdate.__init__(self, response_index, message_is_completed,
new_message="")` is embedded as its parameter list plus Python's
keyword-argument binding; the worker's `except` clause calls it as
`ResponseUpdate(response_index, message_is_completed=True, error=error)`. -/

inductive PyVal where
  | pyStr (s : String)
  | pyBool (b : Bool)
  | pyInt (n : Int)
  | pyExc (msg : String)
deriving DecidableEq, Repr

/-- The parameters of `ResponseUpdate.__init__` after `self`, in order, with
their defaults (`new_message: str = ""`). -/
def ResponseUpdate_init_params : List (String × Option PyVal) :=
  [("response_index", none), ("message_is_completed", none),
   ("new_message", some (PyVal.pyStr ""))]

structure ResponseUpdate where
  response_index : PyVal
  message_is_completed : PyVal
  new_message : PyVal
deriving DecidableEq, Repr

def lookupKw (keywords : List (String × PyVal)) (name : String) : Option PyVal :=
  (keywords.find? (fun kv => kv.1 == name)).map Prod.snd

/-- Python binding of one parameter: positional value, else keyword value,
else default, else `TypeError`. -/
def bindArg (positional : List PyVal) (keywords : List (String × PyVal))
    (idx : Nat) (name : String) (default? : Option PyVal) : Except String PyVal :=
  match positional.get? idx with
  | some v => Except.ok v
  | none =>
    match lookupKw keywords name with
    | some v => Except.ok v
    | none =>
      match default? with
      | some d => Except.ok d
      | none => Except.error ("__init__() missing required argument: '" ++ name ++ "'")

/-- Calling `ResponseUpdate(...)`: Python rejects a keyword that is not a
parameter name with `TypeError: ... got an unexpected keyword argument`,
rejects a keyword that repeats a positionally-bound parameter, and otherwise
binds every parameter. -/
def ResponseUpdate_call (positional : List PyVal) (keywords : List (String × PyVal)) :
    Except String ResponseUpdate :=
  let names := ResponseUpdate_init_params.map Prod.fst
  if positional.length > ResponseUpdate_init_params.length then
    Except.error "__init__() takes from 3 to 4 positional arguments but more were given"
  else
    match keywords.find? (fun kv => !(names.contains kv.1)) with
    | some kv => Except.error ("__init__() got an unexpected keyword argument '" ++ kv.1 ++ "'")
    | none =>
      match keywords.find? (fun kv => (names.take positional.length).contains kv.1) with
      | some kv => Except.error ("__init__() got multiple values for argument '" ++ kv.1 ++ "'")
      | none =>
        match bindArg positional keywords 0 "response_index" none with
        | Except.error e => Except.error e
        | Except.ok ri =>
          match bindArg positional keywords 1 "message_is_completed" none with
          | Except.error e => Except.error e
          | Except.ok mc =>
            match bindArg positional keywords 2 "new_message" (some (PyVal.pyStr "")) with
            | Except.error e => Except.error e
            | Except.ok nm =>
                Except.ok { response_index := ri, message_is_completed := mc, new_message := nm }

/-- The `except` clause of `SyntheaServer.run`: build the final error-carrying
update for the failed response. -/
def server_error_update (response_index : PyVal) (err : PyVal) : Except String ResponseUpdate :=
  ResponseUpdate_call [response_index]
    [("message_is_completed", PyVal.pyBool true), ("error", err)]

/-- C8 (code bug): the worker's error handler calls
`ResponseUpdate(generation_request.response_index, message_is_completed=True,
error=error)`, but `ResponseUpdate.__init__` has no `error` parameter, so
the construction itself raises `TypeError` and no error-carrying update is
ever placed on the response queue — the failure is not surfaced to the
dispatcher as the claim (and the spec's `ResponseUpdate.error` field)
require. -/
theorem response_update_error_kw_rejected :
    server_error_update (PyVal.pyInt 7) (PyVal.pyExc "CUDA error: out of memory") =
      Except.error "__init__() got an unexpected keyword argument 'error'" := by
  rfl

/-! ## PDF attachment temporary-file handling
(`ContextManager._read_attachment`, claim C9)

The filesystem is the list of existing filenames; `attachment.save` writes
the file, each `page.extract_text()` either returns text or raises, and
`os.remove` runs only after the page loop — there is no `try`/`finally`. -/

def pySave (filename : String) (fs : List String) : List String :=
  if filename ∈ fs then fs else filename :: fs

def pyRemove (filename : String) (fs : List String) : List String :=
  fs.erase filename

/-- The page loop of the PDF branch (lines 237-243): accumulate
`"\n" + page_text` per page; a raising page aborts the loop with the file
still present; after the loop the file is removed. -/
def read_pdf_pages (filename : String) (fs1 : List String) (acc : String) :
    List (Except String String) → Except String String × List String
  | [] => (Except.ok acc, pyRemove filename fs1)
  | Except.error e :: _ => (Except.error e, fs1)
  | Except.ok page_text :: rest => read_pdf_pages filename fs1 (acc ++ "\n" ++ page_text) rest

/-- The PDF branch of `_read_attachment` with its temporary-file effects. -/
def read_pdf_attachment (filename : String) (page_results : List (Except String String))
    (fs : List String) : Except String String × List String :=
  read_pdf_pages filename (pySave filename fs) "" page_results

/-- C9, counterexample: when the second page's `extract_text` raises, the
exception propagates and the temporary local copy is NOT deleted — the
claim's "deleted on all exit paths" fails (and nothing logs a deletion
failure; `os.remove` is simply never reached). -/
theorem pdf_cleanup_counterexample :
    read_pdf_attachment "tmp.pdf"
        [Except.ok "page one", Except.error "PdfReadError: EOF marker not found"] [] =
      (Except.error "PdfReadError: EOF marker not found", ["tmp.pdf"]) ∧
    "tmp.pdf" ∈ (read_pdf_attachment "tmp.pdf"
        [Except.ok "page one", Except.error "PdfReadError: EOF marker not found"] []).2 :=
  ⟨rfl, by decide⟩

theorem read_pdf_pages_ok (filename : String) (fs1 : List String) :
    ∀ (pages : List (Except String String)) (acc : String),
    (∀ p ∈ pages, ∃ t, p = Except.ok t) →
    ∃ s, read_pdf_pages filename fs1 acc pages = (Except.ok s, pyRemove filename fs1)
  | [], acc, _ => ⟨acc, rfl⟩
  | p :: rest, acc, hok => by
      obtain ⟨t, ht⟩ := hok p (List.mem_cons_self p rest)
      subst ht
      exact read_pdf_pages_ok filename fs1 rest (acc ++ "\n" ++ t)
        (fun q hq => hok q (List.mem_cons_of_mem _ hq))

/-- C9 (amended): the temporary copy is deleted on the normal exit path
only — after a run in which every page extraction succeeds, a fresh
temporary file is gone again (the filesystem is restored); but when a page
extraction raises, the exception propagates and the temporary file remains
(there is no scoped cleanup), and a deletion failure would likewise
propagate rather than be logged. -/
theorem pdf_cleanup_amended (filename : String) (pages : List (Except String String))
    (fs : List String)
    (hok : ∀ p ∈ pages, ∃ t, p = Except.ok t)
    (hfresh : filename ∉ fs) :
    (read_pdf_attachment filename pages fs).2 = fs ∧
    ∃ s, (read_pdf_attachment filename pages fs).1 = Except.ok s := by
  unfold read_pdf_attachment pySave
  rw [if_neg hfresh]
  obtain ⟨s, hs⟩ := read_pdf_pages_ok filename (filename :: fs) pages "" hok
  rw [hs]
  refine ⟨?_, ⟨s, rfl⟩⟩
  unfold pyRemove
  exact List.erase_cons_head filename fs

/-- Witness for `pdf_cleanup_amended` with two successfully extracted pages. -/
theorem pdf_cleanup_amended_witness :
    (read_pdf_attachment "tmp.pdf" [Except.ok "alpha", Except.ok "beta"] []).2 =
      ([] : List String) ∧
    ∃ s, (read_pdf_attachment "tmp.pdf" [Except.ok "alpha", Except.ok "beta"] []).1 =
      Except.ok s :=
  pdf_cleanup_amended "tmp.pdf" [Except.ok "alpha", Except.ok "beta"] []
    (by intro p hp
        simp only [List.mem_cons, List.not_mem_nil, or_false] at hp
        rcases hp with h | h
        · exact ⟨"alpha", h⟩
        · exact ⟨"beta", h⟩)
    (by decide)

/-! ## Prompt-token normalization (`ChatbotParser.parse`, claim C10) -/

theorem consume_flags_suffix :
    ∀ (toks : List String) (a0 a : ParsedArgs) (rem : List String),
    consume_flags toks a0 = Except.ok (a, rem) →
    rem.IsSuffix toks ∧ a.prompt = a0.prompt
  | [], a0, a, rem, h => by
      simp only [consume_flags, Except.ok.injEq, Prod.mk.injEq] at h
      obtain ⟨h1, h2⟩ := h
      subst h1
      subst h2
      exact ⟨List.nil_suffix, rfl⟩
  | t :: rest, a0, a, rem, h => by
      rw [consume_flags.eq_def] at h
      dsimp only at h
      split at h
      · cases hr : rest with
        | nil => subst hr; cases h
        | cons v rest2 =>
            subst hr
            have := consume_flags_suffix rest2 _ a rem h
            exact ⟨this.1.trans ((List.suffix_cons v rest2).trans (List.suffix_cons t (v :: rest2))),
              this.2⟩
      · split at h
        · have := consume_flags_suffix rest _ a rem h
          exact ⟨this.1.trans (List.suffix_cons t rest), this.2⟩
        · split at h
          · have := consume_flags_suffix rest _ a rem h
            exact ⟨this.1.trans (List.suffix_cons t rest), this.2⟩
          · split at h
            · cases h
            · split at h
              · cases h
              · simp only [Except.ok.injEq, Prod.mk.injEq] at h
                obtain ⟨h1, h2⟩ := h
                subst h1
                subst h2
                exact ⟨List.suffix_refl _, rfl⟩

/-- C10: whenever `ChatbotParser.parse` succeeds, the returned prompt is the
single-space join of a suffix of the whitespace-tokenization of the
prefix-stripped command (the tokens left after the leading flags). Runs of
spaces and newlines inside the user's prompt text are therefore collapsed to
single spaces and leading/trailing whitespace is dropped: the prompt body is
not preserved verbatim. -/
theorem parse_prompt_token_join (config : Config) (command : String) (args : ParsedArgs)
    (h : chatbot_parse config command = Except.ok args) :
    ∃ rem : List String,
      rem.IsSuffix (pySplit (stripCommandStart config.command_start_str command)) ∧
      args.prompt = joinWithSpace rem := by
  unfold chatbot_parse at h
  cases hc : consume_flags (pySplit (stripCommandStart config.command_start_str command))
      {} with
  | error e => rw [hc] at h; cases h
  | ok p =>
      obtain ⟨a, rem⟩ := p
      rw [hc] at h
      dsimp only at h
      simp only [Except.ok.injEq] at h
      refine ⟨rem, (consume_flags_suffix _ _ _ _ hc).1, ?_⟩
      rw [← h]

/-- Witness for `parse_prompt_token_join`: a prompt typed with a double
newline and extra spaces comes back as "hello world". -/
theorem parse_prompt_token_join_witness :
    ∃ rem : List String,
      rem.IsSuffix (pySplit (stripCommandStart cfgBasic.command_start_str
        "!syn hello\n\n  world")) ∧
      ({ character := none, use_as_system_prompt := false, use_image_model := false,
         prompt := "hello world" } : ParsedArgs).prompt = joinWithSpace rem :=
  parse_prompt_token_join cfgBasic "!syn hello\n\n  world"
    { character := none, use_as_system_prompt := false, use_image_model := false,
      prompt := "hello world" } (by rfl)

end Synthea
